import Mathlib

/-!
Shallow embedding of the vesting core of `src/index.js` (cap-table
generator): `parseSchedule`, `get_vested_shares`, `get_next_vesting_date`,
`get_next_vesting_amount` and the wrapper `calculateVestingDetails`.

Modelling conventions:
* JavaScript `Date` values are modelled at day granularity as
  `JSDate` (year, 0-based month, 1-based day); time-of-day is ignored,
  matching the month-granularity arithmetic of the source.
* The source samples the ambient clock (`const now = new Date()`) inside
  `get_vested_shares` and `get_next_vesting_date`; the embedding makes the
  sampled clock value an explicit first argument `clock`, which is the
  faithful rendering of that ambient read.
* JavaScript numbers are modelled as exact integers (`Int`); the share
  counts and month counts of this program are small integers, for which
  double arithmetic is exact.  The one non-numeric float value the code
  can produce — `NaN`, from `0/0` when a parsed duration is `0` — is
  modelled as `none` in an `Option Int` result.
* Thrown exceptions are modelled with `Except JSErr`.
* `new Date(string)` is modelled partially by `parseDateString`, covering
  the numeric month/day/year form (for example "1/1/2025") that this
  repository's data uses; other strings are modelled as parsing to an
  invalid date.
-/

deriving instance DecidableEq for Except

/-- A JavaScript `Date`, at day granularity: `year`, 0-based `month`
(0 = January), 1-based `day`.  A normalized JS date always satisfies
`month < 12`; the structure does not enforce it, theorems that need it
take it as a hypothesis. -/
structure JSDate where
  year : Int
  month : Nat
  day : Nat
deriving DecidableEq, Repr

/-- Validity of a day-granularity date as JS normalization guarantees it. -/
def JSDate.valid (d : JSDate) : Prop := d.month < 12 ∧ 1 ≤ d.day ∧ d.day ≤ 31

/-- JavaScript strict date comparison `a < b` (`b > a`), at day
granularity: lexicographic on (year, month, day). -/
def dateLtb (a b : JSDate) : Bool :=
  decide (a.year < b.year ∨ (a.year = b.year ∧
    (a.month < b.month ∨ (a.month = b.month ∧ a.day < b.day))))

/-- Day-granularity `a ≤ b`, i.e. not `b < a`. -/
def dateLeb (a b : JSDate) : Bool := !(dateLtb b a)

/-- The elapsed-whole-months formula of `src/index.js` (lines 179, 249):
`(now.getFullYear() - start.getFullYear()) * 12 + now.getMonth() - start.getMonth()`. -/
def monthsElapsed (now start : JSDate) : Int :=
  (now.year - start.year) * 12 + ((now.month : Int) - (start.month : Int))

/-- Whether a year is a leap year (Gregorian rule, as JS `Date` uses). -/
def isLeapYear (y : Int) : Bool :=
  (y % 4 == 0 && y % 100 != 0) || y % 400 == 0

/-- Number of days of 0-based month `m` of year `y`. -/
def daysInMonth (y : Int) (m : Nat) : Nat :=
  if m = 1 then (if isLeapYear y then 29 else 28)
  else if m = 3 ∨ m = 5 ∨ m = 8 ∨ m = 10 then 30
  else 31

/-- JavaScript `d.setMonth(d.getMonth() + k)`: the month index is
normalized into year/month, then a day-of-month that exceeds the target
month's length rolls over into the following month (it can roll at most
once, since `day ≤ 31` and every month has at least 28 days). -/
def addMonths (d : JSDate) (k : Int) : JSDate :=
  let t : Int := (d.month : Int) + k
  let y : Int := d.year + Int.fdiv t 12
  let m : Nat := (Int.emod t 12).toNat
  let dim := daysInMonth y m
  if d.day ≤ dim then ⟨y, m, d.day⟩
  else if m = 11 then ⟨y + 1, 0, d.day - dim⟩
  else ⟨y, m + 1, d.day - dim⟩

/-- A JavaScript value in a `startDate` position: a `Date` object, a
string, or `undefined`. -/
inductive JSVal where
  | date (d : JSDate)
  | str (s : String)
  | undef
deriving DecidableEq, Repr

/-- The exceptions the vesting functions of `src/index.js` can throw. -/
inductive JSErr where
  | missingParams
  | invalidShares
  | invalidDate
deriving DecidableEq, Repr

/-- JavaScript truthiness of a `startDate` argument: `Date` objects are
always truthy, a string is truthy unless empty, `undefined` is falsy. -/
def jsTruthy : JSVal → Bool
  | .date _ => true
  | .str s => s ≠ ""
  | .undef => false

/-- Truthiness test `!schedule` of an optional schedule string: falsy
when absent or empty. -/
def scheduleFalsy : Option String → Bool
  | none => true
  | some s => s = ""

/-- ASCII digit test, the `\d` of the source's regular expressions. -/
def isDigitChar (c : Char) : Bool := '0' ≤ c && c ≤ '9'

/-- Whitespace test, the `\s` of the source's regular expressions
(restricted to the common ASCII whitespace characters). -/
def isSpaceChar (c : Char) : Bool := c = ' ' || c = '\t' || c = '\n' || c = '\r'

/-- Numeric value of a digit string, as `parseInt` computes it. -/
def digitsVal (l : List Char) : Nat :=
  l.foldl (fun a c => 10 * a + (c.toNat - '0'.toNat)) 0

/-- Whether a character list starts with the literal token `year`. -/
def startsWithYear : List Char → Bool
  | 'y' :: 'e' :: 'a' :: 'r' :: _ => true
  | _ => false

/-- One attempt of the regular expression `(\d+)\s*year` at the head of
the list: a maximal nonempty digit run, optional whitespace, then the
token `year`; returns the captured digit run's value.  Greedy matching
with backtracking coincides with maximal munch here because a digit is
neither whitespace nor `y`. -/
def matchYearAt (l : List Char) : Option Nat :=
  let p := l.span isDigitChar
  if p.1 = [] then none
  else if startsWithYear (p.2.dropWhile isSpaceChar) then some (digitsVal p.1)
  else none

/-- JavaScript `String.match(/(\d+)\s*year/)`: the first position, left
to right, where the pattern matches; returns capture group 1's value. -/
def matchYear : List Char → Option Nat
  | [] => none
  | c :: t =>
    match matchYearAt (c :: t) with
    | some n => some n
    | none => matchYear t

/-- Segment of `schedule.split('/')[0]`: the characters before the first
slash. -/
def leftSeg (l : List Char) : List Char := l.takeWhile (fun c => c ≠ '/')

/-- Segment of `schedule.split('/')[1]`: the characters between the first
and second slash, or `none` when the string has no slash (the JS index
is then `undefined` and the optional chaining `parts[1]?.match` yields
no match). -/
def rightSeg (l : List Char) : Option (List Char) :=
  match l.dropWhile (fun c => c ≠ '/') with
  | [] => none
  | _ :: t => some (t.takeWhile (fun c => c ≠ '/'))

/-- Lower-cased character list of a string, `schedule.toLowerCase()`. -/
def jsLower (s : String) : List Char := s.data.map Char.toLower

/-- The `parseSchedule` function of `src/index.js` (lines 198-218),
returning `(durationMonths, cliffMonths)`.  Absent (`none`, standing for
a non-string or missing argument) or empty input takes the early default
return; otherwise each segment is searched for `(\d+)\s*year`, a failed
duration match defaults to 4 years and a failed or absent cliff match
defaults to 1 year.  The source's `try`/`catch` is dead code (none of
`toLowerCase`, `split`, `match`, `parseInt` throws), so the function is
total. -/
def parseSchedule : Option String → Nat × Nat
  | none => (48, 12)
  | some s =>
    if s = "" then (48, 12)
    else
      let l := jsLower s
      let durationMatch := matchYear (leftSeg l)
      let cliffMatch := (rightSeg l).bind matchYear
      (durationMatch.getD 4 * 12, cliffMatch.getD 1 * 12)

/-- Partial model of the JS `new Date(string)` constructor: covers the
numeric month/day/year form (for example "1/1/2025") used by this
repository's data; every other string is modelled as an invalid date. -/
def parseDateString (s : String) : Option JSDate :=
  match (s.data.splitOn '/').map (fun l => if l ≠ [] ∧ l.all isDigitChar then some (digitsVal l) else none) with
  | [some m, some d, some y] =>
    if 1 ≤ m ∧ m ≤ 12 ∧ 1 ≤ d ∧ d ≤ daysInMonth (y : Int) (m - 1) then
      some ⟨(y : Int), m - 1, d⟩
    else none
  | _ => none

/-- Conversion `new Date(startDate)` of a JS value to a date: a `Date`
object converts to itself, a string is parsed, `undefined` gives an
invalid date (`NaN` time value), modelled as `none`. -/
def jsNewDate : JSVal → Option JSDate
  | .date d => some d
  | .str s => parseDateString s
  | .undef => none

/-- The expression `Math.floor(totalShares * Math.min(1, monthsElapsed / duration))`
of `src/index.js` line 188-189, under exact arithmetic.  A zero duration
reproduces the JS division by zero: `0/0` is `NaN` (propagated through
`min` and `floor`, modelled as `none`) and `positive/0` is `+Infinity`,
so the percentage clamps to 1.  The negative-`me`-with-zero-duration
branch is unreachable at the call site (`me ≥ cliff ≥ 0` there); JS
would produce an infinite value, modelled as `none` as well. -/
def vestedFloor (shares me : Int) (duration : Nat) : Option Int :=
  if duration = 0 then
    if me = 0 then none
    else if 0 < me then some shares
    else none
  else if (duration : Int) ≤ me then some shares
  else some (Int.fdiv (shares * me) duration)

/-- The `get_vested_shares` function of `src/index.js` (lines 167-190).
The ambient `new Date()` read is the explicit `clock` argument.  The
guard `!totalShares || !startDate || !schedule` throws
`Missing required parameters`; for integer share counts `!totalShares`
is exactly `totalShares = 0` (the JS `NaN`/`Infinity` non-integers are
outside the model).  Then `new Date(startDate)` must yield a valid date
or `Invalid start date` is thrown.  Before the cliff the result is `0`;
otherwise it is the floored pro-rata amount. -/
def get_vested_shares (clock : JSDate) (totalShares : Int) (startDate : JSVal)
    (schedule : Option String) : Except JSErr (Option Int) :=
  if totalShares = 0 ∨ jsTruthy startDate = false ∨ scheduleFalsy schedule = true then
    .error .missingParams
  else
    match jsNewDate startDate with
    | none => .error .invalidDate
    | some start =>
      let me := monthsElapsed clock start
      let pc := parseSchedule schedule
      if me < (pc.2 : Int) then .ok (some 0)
      else .ok (vestedFloor totalShares me pc.1)

/-- Application of the default parameter `schedule = 'quarterly'` of
`get_next_vesting_date` and `get_next_vesting_amount`: an absent
argument becomes the string "quarterly" (which contains no year pattern,
so it parses to the default `(48, 12)`). -/
def schedOrDefault : Option String → Option String
  | none => some "quarterly"
  | some s => some s

/-- The `get_next_vesting_date` function of `src/index.js` (lines
231-270).  The ambient `new Date()` read is the explicit `clock`
argument.  The guard `!startDate || !(startDate instanceof Date)`
rejects every non-`Date` argument — strings included — with
`Invalid start date`; the subsequent `isNaN` check on the copy of a
`Date` object can never fire in the model (every `JSDate` is a valid
date).  A start in the future is returned as is; before the cliff the
result is the cliff date; at or past the full duration it is `null`
(`none`); otherwise the next quarterly date. -/
def get_next_vesting_date (clock : JSDate) (startDate : JSVal)
    (schedule : Option String) : Except JSErr (Option JSDate) :=
  match startDate with
  | .date start =>
    if dateLtb clock start = true then .ok (some start)
    else
      let pc := parseSchedule (schedOrDefault schedule)
      let me := monthsElapsed clock start
      if me < (pc.2 : Int) then .ok (some (addMonths start (pc.2 : Int)))
      else if (pc.1 : Int) ≤ me then .ok none
      else .ok (some (addMonths start ((Int.fdiv me 3 + 1) * 3)))
  | _ => .error .invalidDate

/-- The `get_next_vesting_amount` function of `src/index.js` (lines
292-307).  The guard `!totalShares || Number.isNaN(totalShares)` is
`totalShares = 0` for integer share counts.  The amount is the equal
quarterly increment `floor(totalShares / floor(duration / 3))`, or `0`
when the duration yields no whole quarter. -/
def get_next_vesting_amount (totalShares : Int)
    (schedule : Option String) : Except JSErr Int :=
  if totalShares = 0 then .error .invalidShares
  else
    let quartersTotal := (parseSchedule (schedOrDefault schedule)).1 / 3
    if quartersTotal = 0 then .ok 0
    else .ok (Int.fdiv totalShares quartersTotal)

/-- The record returned by `calculateVestingDetails`. -/
structure VestingDetails where
  vested : Option Int
  nextDate : Option JSDate
  nextAmount : Int
deriving DecidableEq, Repr

/-- The `calculateVestingDetails` helper of `src/index.js` (lines
32-43).  A falsy `startDate`, or one that `new Date` cannot convert,
silently yields the zero record `{vested: 0, nextDate: null, nextAmount: 0}`;
otherwise the three vesting functions are called in order and any
exception they throw propagates. -/
def calculateVestingDetails (clock : JSDate) (shares : Int) (startDate : JSVal)
    (schedule : Option String) : Except JSErr VestingDetails :=
  if jsTruthy startDate = false then .ok ⟨some 0, none, 0⟩
  else
    match jsNewDate startDate with
    | none => .ok ⟨some 0, none, 0⟩
    | some start => do
      let v ← get_vested_shares clock shares (.date start) schedule
      let nd ← get_next_vesting_date clock (.date start) schedule
      let na ← get_next_vesting_amount shares schedule
      pure ⟨v, nd, na⟩

/-- Modelled from the spec (section 4.2, next-vesting-date rule): the
case split written from the spec's words, over an already-parsed
schedule pair `(durationMonths, cliffMonths)`.  Used to state the
refinement claim that the code implements exactly this algorithm. -/
def nextVestingDateSpec (clock start : JSDate) (ps : Nat × Nat) : Option JSDate :=
  if dateLtb clock start = true then some start
  else if monthsElapsed clock start < (ps.2 : Int) then some (addMonths start (ps.2 : Int))
  else if (ps.1 : Int) ≤ monthsElapsed clock start then none
  else some (addMonths start ((Int.fdiv (monthsElapsed clock start) 3 + 1) * 3))

/-- Modelled from the spec (section 4.2, next-vesting-amount rule):
`quartersTotal = floor(durationMonths / 3)`; if `quartersTotal ≤ 0`
return 0; else `floor(totalShares / quartersTotal)`. -/
def nextVestingAmountSpec (totalShares : Int) (ps : Nat × Nat) : Int :=
  let quartersTotal := ps.1 / 3
  if quartersTotal = 0 then 0 else Int.fdiv totalShares quartersTotal

example : parseSchedule (some "4 year / 1 year cliff") = (48, 12) := by decide
example : parseSchedule (some "2 years") = (24, 12) := by decide
example : parseSchedule none = (48, 12) := by decide
example : parseSchedule (some "garbage") = (48, 12) := by decide
example : parseSchedule (some "quarterly") = (48, 12) := by decide
example : parseSchedule (some "1 year / 2 year cliff") = (12, 24) := by decide
example : parseSchedule (some "0 year / 0 year cliff") = (0, 0) := by decide
example : parseDateString "1/1/2025" = some ⟨2025, 0, 1⟩ := by decide
example : parseDateString "garbage" = none := by decide
example :
    get_vested_shares ⟨2025, 5, 1⟩ 1000000 (.date ⟨2025, 0, 1⟩)
      (some "4 year / 1 year cliff") = .ok (some 0) := by decide
example :
    get_vested_shares ⟨2027, 0, 1⟩ 1000000 (.date ⟨2025, 0, 1⟩)
      (some "4 year / 1 year cliff") = .ok (some 500000) := by decide
example :
    get_next_vesting_date ⟨2025, 5, 1⟩ (.date ⟨2025, 0, 1⟩)
      (some "4 year / 1 year cliff") = .ok (some ⟨2026, 0, 1⟩) := by decide
example :
    get_next_vesting_date ⟨2027, 0, 1⟩ (.date ⟨2025, 0, 1⟩)
      (some "4 year / 1 year cliff") = .ok (some ⟨2027, 3, 1⟩) := by decide
example :
    get_next_vesting_amount 1000000 (some "4 year / 1 year cliff") = .ok 62500 := by
  decide

theorem dateLtb_iff (a b : JSDate) : dateLtb a b = true ↔
    (a.year < b.year ∨ (a.year = b.year ∧
      (a.month < b.month ∨ (a.month = b.month ∧ a.day < b.day)))) := by
  unfold dateLtb
  exact decide_eq_true_iff

theorem monthsElapsed_nonpos_of_ltb {a b : JSDate} (h : dateLtb a b = true)
    (hm : a.month < 12) : monthsElapsed a b ≤ 0 := by
  rw [dateLtb_iff] at h
  unfold monthsElapsed
  omega

theorem monthsElapsed_mono {a b : JSDate} (s : JSDate) (h : dateLeb a b = true)
    (hm : a.month < 12) : monthsElapsed a s ≤ monthsElapsed b s := by
  unfold dateLeb at h
  have h2 : dateLtb b a = false := by
    cases hdl : dateLtb b a
    · rfl
    · rw [hdl] at h; cases h
  unfold dateLtb at h2
  rw [decide_eq_false_iff_not] at h2
  unfold monthsElapsed
  omega

theorem vestedFloor_eq_min (shares me : Int) (duration : Nat) (hd : duration ≠ 0) :
    vestedFloor shares me duration = some (shares * min me (duration : Int) / duration) := by
  have hd0 : ((duration : Int)) ≠ 0 := by exact_mod_cast hd
  unfold vestedFloor
  rw [if_neg hd]
  split_ifs with h
  · rw [min_eq_right h, Int.mul_ediv_cancel _ hd0]
  · rw [Int.fdiv_eq_ediv _ (Int.natCast_nonneg _), min_eq_left (le_of_not_le h)]

theorem vested_div_mono {shares me1 me2 : Int} {duration : Nat} (hs : 0 < shares)
    (h12 : me1 ≤ me2) :
    shares * min me1 (duration : Int) / duration ≤
      shares * min me2 (duration : Int) / duration := by
  rcases Nat.eq_zero_or_pos duration with h | h
  · subst h; simp
  · exact Int.ediv_le_ediv (by exact_mod_cast h)
      (mul_le_mul_of_nonneg_left (min_le_min h12 le_rfl) (le_of_lt hs))

theorem vested_div_nonneg {shares me : Int} {duration : Nat} (hs : 0 ≤ shares)
    (hme : 0 ≤ me) : 0 ≤ shares * min me (duration : Int) / duration :=
  Int.ediv_nonneg (mul_nonneg hs (le_min hme (Int.natCast_nonneg _)))
    (Int.natCast_nonneg _)

theorem schedOrDefault_of_not_falsy {sched : Option String}
    (h : scheduleFalsy sched = false) : schedOrDefault sched = sched := by
  cases sched
  · exact absurd h (by simp [scheduleFalsy])
  · rfl

theorem vestGuardFalse {shares : Int} {v : JSVal} {sched : Option String}
    (hs : shares ≠ 0) (ht : jsTruthy v = true) (hns : scheduleFalsy sched = false) :
    ¬ (shares = 0 ∨ jsTruthy v = false ∨ scheduleFalsy sched = true) := by
  rintro (h | h | h)
  · exact hs h
  · rw [ht] at h; cases h
  · rw [hns] at h; cases h

/-- C1.  Cliff gate: for every grant whose arguments pass the
`Missing required parameters` guard (nonzero shares, schedule present
and nonempty) and every reference date, if the elapsed whole months
from `startDate` to the reference date are strictly less than the
parsed schedule's cliff months — no matter how large or how negative —
then `get_vested_shares` returns exactly 0 vested shares. -/
theorem cliff_gate_zero_vested (clock start : JSDate) (shares : Int)
    (sched : Option String) (hs : shares ≠ 0) (hns : scheduleFalsy sched = false)
    (hcliff : monthsElapsed clock start < ((parseSchedule sched).2 : Int)) :
    get_vested_shares clock shares (.date start) sched = .ok (some 0) := by
  unfold get_vested_shares
  rw [if_neg (by exact vestGuardFalse hs rfl hns)]
  show (if monthsElapsed clock start < ((parseSchedule sched).2 : Int)
    then (Except.ok (some 0) : Except JSErr (Option Int)) else _) = _
  rw [if_pos hcliff]

/-- Witness for C1 at the spec's concrete scenario: 1,000,000 shares,
start 2025-01-01, schedule "4 year / 1 year cliff", now 2025-06-01
(5 elapsed months, below the 12-month cliff). -/
theorem cliff_gate_zero_vested_witness :
    (1000000 : Int) ≠ 0 ∧
    scheduleFalsy (some "4 year / 1 year cliff") = false ∧
    monthsElapsed ⟨2025, 5, 1⟩ ⟨2025, 0, 1⟩ <
      ((parseSchedule (some "4 year / 1 year cliff")).2 : Int) ∧
    get_vested_shares ⟨2025, 5, 1⟩ 1000000 (.date ⟨2025, 0, 1⟩)
      (some "4 year / 1 year cliff") = .ok (some 0) :=
  ⟨by decide, by decide, by decide,
    cliff_gate_zero_vested ⟨2025, 5, 1⟩ ⟨2025, 0, 1⟩ 1000000
      (some "4 year / 1 year cliff") (by decide) (by decide) (by decide)⟩

/-- C2, counterexample to the claim as stated.  With the schedule text
"0 year / 0 year cliff" the parsed duration and cliff are both 0, so at
`monthsElapsed = 0` the hypotheses of the claim hold
(`monthsElapsed ≥ durationMonths` and `≥ cliffMonths`), yet the code
computes `min(1, 0/0) = NaN` and returns `NaN` (modelled `none`) instead
of `totalShares`. -/
theorem full_vesting_counterexample :
    parseSchedule (some "0 year / 0 year cliff") = (0, 0) ∧
    ((parseSchedule (some "0 year / 0 year cliff")).1 : Int) ≤
      monthsElapsed ⟨2025, 0, 1⟩ ⟨2025, 0, 1⟩ ∧
    ((parseSchedule (some "0 year / 0 year cliff")).2 : Int) ≤
      monthsElapsed ⟨2025, 0, 1⟩ ⟨2025, 0, 1⟩ ∧
    get_vested_shares ⟨2025, 0, 1⟩ 1000000 (.date ⟨2025, 0, 1⟩)
      (some "0 year / 0 year cliff") = .ok none ∧
    get_vested_shares ⟨2025, 0, 1⟩ 1000000 (.date ⟨2025, 0, 1⟩)
      (some "0 year / 0 year cliff") ≠ .ok (some 1000000) := by
  refine ⟨by decide, by decide, by decide, by decide, by decide⟩

/-- C2, amended.  Full vesting: for every grant whose arguments pass the
parameter guard, whose parsed duration is positive (every schedule
except a "0 year" one), and for every normalized reference date, if the
elapsed months reach both the parsed duration and the parsed cliff then
the vested shares equal `totalShares` exactly and the next-vesting-date
computation returns `null` (no further vesting event). -/
theorem full_vesting_total_and_no_next_date (clock start : JSDate) (shares : Int)
    (sched : Option String) (hm : clock.month < 12) (hs : shares ≠ 0)
    (hns : scheduleFalsy sched = false) (hd : (parseSchedule sched).1 ≠ 0)
    (hdur : ((parseSchedule sched).1 : Int) ≤ monthsElapsed clock start)
    (hcliff : ((parseSchedule sched).2 : Int) ≤ monthsElapsed clock start) :
    get_vested_shares clock shares (.date start) sched = .ok (some shares) ∧
    get_next_vesting_date clock (.date start) sched = .ok none := by
  have hlt : dateLtb clock start = false := by
    cases hdl : dateLtb clock start
    · rfl
    · exfalso
      have h0 := monthsElapsed_nonpos_of_ltb hdl hm
      omega
  constructor
  · unfold get_vested_shares
    rw [if_neg (by exact vestGuardFalse hs rfl hns)]
    show (if monthsElapsed clock start < ((parseSchedule sched).2 : Int)
      then (Except.ok (some 0) : Except JSErr (Option Int))
      else .ok (vestedFloor shares (monthsElapsed clock start) (parseSchedule sched).1)) = _
    rw [if_neg (not_lt.mpr hcliff)]
    unfold vestedFloor
    rw [if_neg hd, if_pos hdur]
  · unfold get_next_vesting_date
    rw [schedOrDefault_of_not_falsy hns]
    show (if dateLtb clock start = true then _ else _) = _
    rw [hlt]
    rw [if_neg (by exact Bool.false_ne_true)]
    show (if monthsElapsed clock start < ((parseSchedule sched).2 : Int) then _
      else if ((parseSchedule sched).1 : Int) ≤ monthsElapsed clock start
        then (Except.ok none : Except JSErr (Option JSDate)) else _) = _
    rw [if_neg (not_lt.mpr hcliff), if_pos hdur]

/-- Witness for C2 (amended) at the spec's concrete scenario:
1,000,000 shares, start 2025-01-01, schedule "4 year / 1 year cliff",
now 2029-02-01 (49 elapsed months, past the 48-month duration). -/
theorem full_vesting_total_and_no_next_date_witness :
    (⟨2029, 1, 1⟩ : JSDate).month < 12 ∧
    (1000000 : Int) ≠ 0 ∧
    scheduleFalsy (some "4 year / 1 year cliff") = false ∧
    (parseSchedule (some "4 year / 1 year cliff")).1 ≠ 0 ∧
    ((parseSchedule (some "4 year / 1 year cliff")).1 : Int) ≤
      monthsElapsed ⟨2029, 1, 1⟩ ⟨2025, 0, 1⟩ ∧
    ((parseSchedule (some "4 year / 1 year cliff")).2 : Int) ≤
      monthsElapsed ⟨2029, 1, 1⟩ ⟨2025, 0, 1⟩ ∧
    (get_vested_shares ⟨2029, 1, 1⟩ 1000000 (.date ⟨2025, 0, 1⟩)
      (some "4 year / 1 year cliff") = .ok (some 1000000) ∧
    get_next_vesting_date ⟨2029, 1, 1⟩ (.date ⟨2025, 0, 1⟩)
      (some "4 year / 1 year cliff") = .ok none) :=
  ⟨by decide, by decide, by decide, by decide, by decide, by decide,
    full_vesting_total_and_no_next_date ⟨2029, 1, 1⟩ ⟨2025, 0, 1⟩ 1000000
      (some "4 year / 1 year cliff") (by decide) (by decide) (by decide)
      (by decide) (by decide) (by decide)⟩

/-- C3, counterexample to the claim as stated.  Both vesting operations
read the ambient clock (`const now = new Date()`, `src/index.js` lines
178 and 236) instead of taking the reference date as a parameter: two
calls with identical explicit arguments (shares, start date, schedule)
made at different clock instants return different results. -/
theorem explicit_now_counterexample :
    get_vested_shares ⟨2025, 5, 1⟩ 1000000 (.date ⟨2025, 0, 1⟩)
      (some "4 year / 1 year cliff") = .ok (some 0) ∧
    get_vested_shares ⟨2027, 0, 1⟩ 1000000 (.date ⟨2025, 0, 1⟩)
      (some "4 year / 1 year cliff") = .ok (some 500000) ∧
    get_vested_shares ⟨2025, 5, 1⟩ 1000000 (.date ⟨2025, 0, 1⟩)
      (some "4 year / 1 year cliff") ≠
      get_vested_shares ⟨2027, 0, 1⟩ 1000000 (.date ⟨2025, 0, 1⟩)
        (some "4 year / 1 year cliff") := by
  refine ⟨by decide, by decide, by decide⟩

/-- C3, amended.  The computations are deterministic in their explicit
arguments together with the ambient clock sample: the clock influences
`get_vested_shares` only through the whole-month difference
`monthsElapsed`, and `get_next_vesting_date` only through
`monthsElapsed` and the `start > now` comparison, so two calls with
identical explicit arguments whose clock samples agree on those derived
quantities return identical results. -/
theorem vesting_deterministic_in_clock (clock1 clock2 start : JSDate)
    (shares : Int) (sched : Option String)
    (hme : monthsElapsed clock1 start = monthsElapsed clock2 start)
    (hlt : dateLtb clock1 start = dateLtb clock2 start) :
    get_vested_shares clock1 shares (.date start) sched =
      get_vested_shares clock2 shares (.date start) sched ∧
    get_next_vesting_date clock1 (.date start) sched =
      get_next_vesting_date clock2 (.date start) sched := by
  constructor
  · unfold get_vested_shares
    simp only [jsNewDate, hme]
  · unfold get_next_vesting_date
    simp only [hme, hlt]

/-- Witness for C3 (amended): two clock dates inside the same calendar
month (2025-06-01 and 2025-06-20) give the same `monthsElapsed` and the
same `start > now` comparison, hence identical results. -/
theorem vesting_deterministic_in_clock_witness :
    monthsElapsed ⟨2025, 5, 1⟩ ⟨2025, 0, 1⟩ =
      monthsElapsed ⟨2025, 5, 20⟩ ⟨2025, 0, 1⟩ ∧
    dateLtb ⟨2025, 5, 1⟩ ⟨2025, 0, 1⟩ = dateLtb ⟨2025, 5, 20⟩ ⟨2025, 0, 1⟩ ∧
    (get_vested_shares ⟨2025, 5, 1⟩ 1000000 (.date ⟨2025, 0, 1⟩)
      (some "4 year / 1 year cliff") =
      get_vested_shares ⟨2025, 5, 20⟩ 1000000 (.date ⟨2025, 0, 1⟩)
        (some "4 year / 1 year cliff") ∧
    get_next_vesting_date ⟨2025, 5, 1⟩ (.date ⟨2025, 0, 1⟩)
      (some "4 year / 1 year cliff") =
      get_next_vesting_date ⟨2025, 5, 20⟩ (.date ⟨2025, 0, 1⟩)
        (some "4 year / 1 year cliff")) :=
  ⟨by decide, by decide,
    vesting_deterministic_in_clock ⟨2025, 5, 1⟩ ⟨2025, 5, 20⟩ ⟨2025, 0, 1⟩
      1000000 (some "4 year / 1 year cliff") (by decide) (by decide)⟩

/-- C4, counterexample to the claim as stated.  The guard
`!totalShares` only rejects a zero (or `NaN`) share count, so the
non-positive value -16 passes it and `get_vested_shares` silently
computes a negative vested amount instead of signalling an
invalid-input failure; and `calculateVestingDetails` converts a
`startDate` that does not resolve to a valid calendar date into a
silent zero record instead of an error. -/
theorem failfast_counterexample :
    get_vested_shares ⟨2027, 0, 1⟩ (-16) (.date ⟨2025, 0, 1⟩)
      (some "4 year / 1 year cliff") = .ok (some (-8)) ∧
    calculateVestingDetails ⟨2027, 0, 1⟩ 1000000 (.str "garbage")
      (some "4 year / 1 year cliff") = .ok ⟨some 0, none, 0⟩ := by
  refine ⟨by decide, by decide⟩

/-- C4, amended.  Fail-fast holds for the zero and invalid-date cases of
`get_vested_shares`: a zero share count always raises
`Missing required parameters`, and a truthy `startDate` that does not
convert to a valid date raises `Invalid start date` (in particular
`totalShares = 0` with a valid date raises).  But the policy is not the
claimed one: any nonzero integer share count — negative ones included —
together with a convertible date yields a non-error result, and the
wrapper `calculateVestingDetails` maps a missing or unconvertible
`startDate` to the silent zero record rather than an error. -/
theorem failfast_guard_behavior (clock start : JSDate) (sched : Option String)
    (v : JSVal) (shares : Int) :
    get_vested_shares clock 0 v sched = .error .missingParams ∧
    (jsTruthy v = true → jsNewDate v = none → shares ≠ 0 →
      scheduleFalsy sched = false →
      get_vested_shares clock shares v sched = .error .invalidDate) ∧
    (jsNewDate v = none →
      calculateVestingDetails clock shares v sched = .ok ⟨some 0, none, 0⟩) ∧
    (shares ≠ 0 → scheduleFalsy sched = false →
      ∃ r : Option Int,
        get_vested_shares clock shares (.date start) sched = .ok r) := by
  refine ⟨?_, ?_, ?_, ?_⟩
  · unfold get_vested_shares
    rw [if_pos (Or.inl rfl)]
  · intro ht hn hs hns
    unfold get_vested_shares
    rw [if_neg (vestGuardFalse hs ht hns), hn]
  · intro hn
    unfold calculateVestingDetails
    cases ht : jsTruthy v
    · rw [if_pos rfl]
    · rw [if_neg (by simp [ht]), hn]
  · intro hs hns
    unfold get_vested_shares
    rw [if_neg (by exact vestGuardFalse hs rfl hns)]
    show (∃ r : Option Int,
      (if monthsElapsed clock start < ((parseSchedule sched).2 : Int)
        then (Except.ok (some 0) : Except JSErr (Option Int))
        else .ok (vestedFloor shares (monthsElapsed clock start)
          (parseSchedule sched).1)) = .ok r)
    split_ifs
    · exact ⟨some 0, rfl⟩
    · exact ⟨_, rfl⟩

/-- Witness for C4 (amended): the zero-shares call fails, the
unparsable-string date fails in `get_vested_shares`, the wrapper
silently zeroes it, and the negative share count -16 is accepted. -/
theorem failfast_guard_behavior_witness :
    get_vested_shares ⟨2027, 0, 1⟩ 0 (.str "garbage")
      (some "4 year / 1 year cliff") = .error .missingParams ∧
    get_vested_shares ⟨2027, 0, 1⟩ (-16) (.str "garbage")
      (some "4 year / 1 year cliff") = .error .invalidDate ∧
    calculateVestingDetails ⟨2027, 0, 1⟩ (-16) (.str "garbage")
      (some "4 year / 1 year cliff") = .ok ⟨some 0, none, 0⟩ ∧
    (∃ r : Option Int, get_vested_shares ⟨2027, 0, 1⟩ (-16)
      (.date ⟨2025, 0, 1⟩) (some "4 year / 1 year cliff") = .ok r) :=
  ⟨(failfast_guard_behavior ⟨2027, 0, 1⟩ ⟨2025, 0, 1⟩
      (some "4 year / 1 year cliff") (.str "garbage") (-16)).1,
   (failfast_guard_behavior ⟨2027, 0, 1⟩ ⟨2025, 0, 1⟩
      (some "4 year / 1 year cliff") (.str "garbage") (-16)).2.1
      (by decide) (by decide) (by decide) (by decide),
   (failfast_guard_behavior ⟨2027, 0, 1⟩ ⟨2025, 0, 1⟩
      (some "4 year / 1 year cliff") (.str "garbage") (-16)).2.2.1
      (by decide),
   (failfast_guard_behavior ⟨2027, 0, 1⟩ ⟨2025, 0, 1⟩
      (some "4 year / 1 year cliff") (.str "garbage") (-16)).2.2.2
      (by decide) (by decide)⟩

/-- C5.  Schedule-parser totality and fixed fallback: `parseSchedule` is
a total function (the source's `try`/`catch` protects calls that cannot
throw), and on absent input, or on any text none of whose segments
contains the integer-year pattern `(\d+)\s*year` (which covers the empty
string), it returns the fixed default `(48, 12)`. -/
theorem parse_schedule_fallback (s : String)
    (h1 : matchYear (leftSeg (jsLower s)) = none)
    (h2 : (rightSeg (jsLower s)).bind matchYear = none) :
    parseSchedule none = (48, 12) ∧ parseSchedule (some s) = (48, 12) := by
  refine ⟨rfl, ?_⟩
  simp only [parseSchedule]
  split_ifs
  · rfl
  · simp only [h1, h2]
    rfl

/-- Witness for C5 on the spec's example "garbage": neither segment of
"garbage" matches the year pattern, and the parse yields the default. -/
theorem parse_schedule_fallback_witness :
    matchYear (leftSeg (jsLower "garbage")) = none ∧
    (rightSeg (jsLower "garbage")).bind matchYear = none ∧
    (parseSchedule none = (48, 12) ∧ parseSchedule (some "garbage") = (48, 12)) :=
  ⟨by decide, by decide, parse_schedule_fallback "garbage" (by decide) (by decide)⟩

/-- C6, counterexample to the claim as stated.  The parser performs no
cross-segment validation, so "1 year / 2 year cliff" parses to
`durationMonths = 12` and `cliffMonths = 24`, violating the claimed
invariant `cliffMonths ≤ durationMonths`. -/
theorem parsed_schedule_invariant_counterexample :
    parseSchedule (some "1 year / 2 year cliff") = (12, 24) ∧
    ¬ (parseSchedule (some "1 year / 2 year cliff")).2 ≤
      (parseSchedule (some "1 year / 2 year cliff")).1 := by
  refine ⟨by decide, by decide⟩

/-- C6, amended.  The invariant that every `parseSchedule` result
actually satisfies: both components are nonnegative multiples of 12
(whole years).  Neither `0 < durationMonths` nor
`cliffMonths ≤ durationMonths` holds in general: "0 year" yields
duration 0 and "1 year / 2 year cliff" yields a cliff exceeding the
duration. -/
theorem parsed_schedule_shape (inp : Option String) :
    ∃ d c : Nat, parseSchedule inp = (12 * d, 12 * c) := by
  cases inp with
  | none => exact ⟨4, 1, rfl⟩
  | some s =>
    simp only [parseSchedule]
    split_ifs
    · exact ⟨4, 1, rfl⟩
    · refine ⟨(matchYear (leftSeg (jsLower s))).getD 4,
        ((rightSeg (jsLower s)).bind matchYear).getD 1, ?_⟩
      show ((matchYear (leftSeg (jsLower s))).getD 4 * 12,
          ((rightSeg (jsLower s)).bind matchYear).getD 1 * 12) =
        (12 * (matchYear (leftSeg (jsLower s))).getD 4,
          12 * ((rightSeg (jsLower s)).bind matchYear).getD 1)
      rw [Nat.mul_comm 12, Nat.mul_comm 12]

theorem jsTruthy_of_newDate {v : JSVal} {d : JSDate} (h : jsNewDate v = some d) :
    jsTruthy v = true := by
  cases v with
  | date d2 => rfl
  | str s =>
    by_cases heq : s = ""
    · subst heq
      have h0 : jsNewDate (JSVal.str "") = none := by decide
      rw [h0] at h
      cases h
    · simp [jsTruthy, heq]
  | undef => cases h

theorem vested_branch_exists (clock start : JSDate) (shares : Int)
    (sched : Option String) (hs : shares ≠ 0) (hns : scheduleFalsy sched = false)
    (hd : (parseSchedule sched).1 ≠ 0) :
    get_vested_shares clock shares (.date start) sched =
      .ok (some (if monthsElapsed clock start < ((parseSchedule sched).2 : Int)
        then 0
        else shares * min (monthsElapsed clock start)
          ((parseSchedule sched).1 : Int) / (parseSchedule sched).1)) := by
  unfold get_vested_shares
  rw [if_neg (by exact vestGuardFalse hs rfl hns)]
  show (if monthsElapsed clock start < ((parseSchedule sched).2 : Int)
    then (Except.ok (some 0) : Except JSErr (Option Int))
    else .ok (vestedFloor shares (monthsElapsed clock start)
      (parseSchedule sched).1)) = _
  split_ifs
  · rfl
  · rw [vestedFloor_eq_min _ _ _ hd]

/-- C7.  Next-vesting-date algorithm: for every start date (as a `Date`
object), every schedule text, and every reference date,
`get_next_vesting_date` returns exactly the value of the spec's case
split (`nextVestingDateSpec`): the start itself if it lies in the
future, the cliff date before the cliff, `null` at or past the full
duration, and otherwise start plus `(floor(monthsElapsed/3) + 1) * 3`
months. -/
theorem next_vesting_date_algorithm (clock start : JSDate) (sched : Option String) :
    get_next_vesting_date clock (.date start) sched =
      .ok (nextVestingDateSpec clock start (parseSchedule (schedOrDefault sched))) := by
  simp only [get_next_vesting_date, nextVestingDateSpec]
  split_ifs <;> rfl

/-- C8.  Next-vesting-amount formula: for every nonzero share count and
every schedule, `get_next_vesting_amount` returns exactly the spec's
formula (`nextVestingAmountSpec`): `floor(totalShares / quartersTotal)`
with `quartersTotal = floor(durationMonths / 3)`, or 0 when
`quartersTotal ≤ 0`.  The function takes no reference date at all, so
the amount cannot depend on elapsed time. -/
theorem next_vesting_amount_formula (shares : Int) (sched : Option String)
    (hs : shares ≠ 0) :
    get_next_vesting_amount shares sched =
      .ok (nextVestingAmountSpec shares (parseSchedule (schedOrDefault sched))) := by
  simp only [get_next_vesting_amount, nextVestingAmountSpec]
  rw [if_neg hs]
  split_ifs <;> rfl

/-- Witness for C8 at the spec's concrete scenario: 1,000,000 shares on
a 48-month schedule vest in 16 quarters of floor(1,000,000/16) = 62,500
shares. -/
theorem next_vesting_amount_formula_witness :
    (1000000 : Int) ≠ 0 ∧
    get_next_vesting_amount 1000000 (some "4 year / 1 year cliff") = .ok 62500 := by
  refine ⟨by decide, ?_⟩
  rw [next_vesting_amount_formula 1000000 (some "4 year / 1 year cliff") (by decide)]
  decide

/-- C9, counterexample to the claim as stated.  For the grant
(1000 shares, schedule "0 year / 0 year cliff") the parsed duration and
cliff are 0; at a reference date in the start month the code computes
`NaN` (modelled `.ok none`), while one month later it computes 1000, so
the vested shares at the earlier date are not a number less than or
equal to the later result — the claimed comparison fails to hold. -/
theorem vested_monotone_counterexample :
    dateLeb ⟨2025, 0, 1⟩ ⟨2025, 1, 1⟩ = true ∧
    get_vested_shares ⟨2025, 0, 1⟩ 1000 (.date ⟨2025, 0, 1⟩)
      (some "0 year / 0 year cliff") = .ok none ∧
    get_vested_shares ⟨2025, 1, 1⟩ 1000 (.date ⟨2025, 0, 1⟩)
      (some "0 year / 0 year cliff") = .ok (some 1000) ∧
    ¬ ∃ a : Int, get_vested_shares ⟨2025, 0, 1⟩ 1000 (.date ⟨2025, 0, 1⟩)
      (some "0 year / 0 year cliff") = .ok (some a) := by
  refine ⟨by decide, by decide, by decide, ?_⟩
  rintro ⟨a, ha⟩
  rw [show get_vested_shares ⟨2025, 0, 1⟩ 1000 (.date ⟨2025, 0, 1⟩)
    (some "0 year / 0 year cliff") = .ok none from by decide] at ha
  cases ha

/-- C9, amended.  Monotonicity of vesting: for every fixed grant with a
positive share count and a schedule whose parsed duration is positive,
and any two normalized reference dates `clock1 ≤ clock2`, both calls
return numeric results `a` and `b` with `a ≤ b` (vested shares are
non-decreasing as the reference date advances). -/
theorem vested_shares_monotone (clock1 clock2 start : JSDate) (shares : Int)
    (sched : Option String) (hm1 : clock1.month < 12) (hs : 0 < shares)
    (hns : scheduleFalsy sched = false) (hd : (parseSchedule sched).1 ≠ 0)
    (hle : dateLeb clock1 clock2 = true) :
    ∃ a b : Int,
      get_vested_shares clock1 shares (.date start) sched = .ok (some a) ∧
      get_vested_shares clock2 shares (.date start) sched = .ok (some b) ∧
      a ≤ b := by
  have h1 := vested_branch_exists clock1 start shares sched (ne_of_gt hs) hns hd
  have h2 := vested_branch_exists clock2 start shares sched (ne_of_gt hs) hns hd
  refine ⟨_, _, h1, h2, ?_⟩
  have hmono := monthsElapsed_mono start hle hm1
  split_ifs with ha hb hb
  · exact le_refl 0
  · exact vested_div_nonneg (le_of_lt hs)
      (le_trans (Int.natCast_nonneg _) (not_lt.mp hb))
  · exact absurd (lt_of_le_of_lt hmono hb) ha
  · exact vested_div_mono hs hmono

/-- Witness for C9 (amended) on the spec's grant: from 2025-06-01
(before the cliff, 0 vested) to 2027-01-01 (halfway, 500,000 vested). -/
theorem vested_shares_monotone_witness :
    (⟨2025, 5, 1⟩ : JSDate).month < 12 ∧
    (0 : Int) < 1000000 ∧
    scheduleFalsy (some "4 year / 1 year cliff") = false ∧
    (parseSchedule (some "4 year / 1 year cliff")).1 ≠ 0 ∧
    dateLeb ⟨2025, 5, 1⟩ ⟨2027, 0, 1⟩ = true ∧
    ∃ a b : Int,
      get_vested_shares ⟨2025, 5, 1⟩ 1000000 (.date ⟨2025, 0, 1⟩)
        (some "4 year / 1 year cliff") = .ok (some a) ∧
      get_vested_shares ⟨2027, 0, 1⟩ 1000000 (.date ⟨2025, 0, 1⟩)
        (some "4 year / 1 year cliff") = .ok (some b) ∧
      a ≤ b :=
  ⟨by decide, by decide, by decide, by decide, by decide,
    vested_shares_monotone ⟨2025, 5, 1⟩ ⟨2027, 0, 1⟩ ⟨2025, 0, 1⟩ 1000000
      (some "4 year / 1 year cliff") (by decide) (by decide) (by decide)
      (by decide) (by decide)⟩

/-- C10.  Interface asymmetry on date inputs: `get_next_vesting_date`
throws `Invalid start date` for every argument that is not a `Date`
object — including the valid date string "1/1/2025" — whereas
`get_vested_shares` accepts any `startDate` that `new Date(...)` can
convert (behaving as on the converted `Date`) and throws
`Invalid start date` only when the conversion fails, so the two
operations of one pipeline disagree on the same `startDate` input. -/
theorem date_input_asymmetry (clock : JSDate) :
    (∀ v : JSVal, (∀ d : JSDate, v ≠ .date d) →
      get_next_vesting_date clock v (some "4 year / 1 year cliff") =
        .error .invalidDate) ∧
    get_next_vesting_date clock (.str "1/1/2025") (some "4 year / 1 year cliff") =
      .error .invalidDate ∧
    (∀ (shares : Int) (v : JSVal) (d : JSDate), shares ≠ 0 →
      jsNewDate v = some d →
      get_vested_shares clock shares v (some "4 year / 1 year cliff") =
        get_vested_shares clock shares (.date d) (some "4 year / 1 year cliff") ∧
      ∃ r : Option Int,
        get_vested_shares clock shares v (some "4 year / 1 year cliff") = .ok r) ∧
    (∀ (shares : Int) (v : JSVal), shares ≠ 0 → jsTruthy v = true →
      jsNewDate v = none →
      get_vested_shares clock shares v (some "4 year / 1 year cliff") =
        .error .invalidDate) := by
  refine ⟨?_, rfl, ?_, ?_⟩
  · intro v hv
    cases v with
    | date d => exact absurd rfl (hv d)
    | str s => rfl
    | undef => rfl
  · intro shares v d hs hv
    have ht := jsTruthy_of_newDate hv
    have hv2 : get_vested_shares clock shares v (some "4 year / 1 year cliff") =
        get_vested_shares clock shares (.date d) (some "4 year / 1 year cliff") := by
      unfold get_vested_shares
      rw [if_neg (vestGuardFalse hs ht (by decide)),
        if_neg (by exact vestGuardFalse hs rfl (by decide)), hv]
      rfl
    refine ⟨hv2, ?_⟩
    rw [hv2, vested_branch_exists clock d shares
      (some "4 year / 1 year cliff") hs (by decide) (by decide)]
    exact ⟨_, rfl⟩
  · intro shares v hs ht hn
    unfold get_vested_shares
    rw [if_neg (vestGuardFalse hs ht (by decide)), hn]

/-- Witness for C10: the string "1/1/2025" is rejected by
`get_next_vesting_date` but accepted by `get_vested_shares` (which
treats it as the date 2025-01-01), while the unconvertible string
"garbage" makes `get_vested_shares` throw `Invalid start date`. -/
theorem date_input_asymmetry_witness :
    get_next_vesting_date ⟨2025, 5, 1⟩ (.str "1/1/2025")
      (some "4 year / 1 year cliff") = .error .invalidDate ∧
    get_vested_shares ⟨2025, 5, 1⟩ 1000000 (.str "1/1/2025")
      (some "4 year / 1 year cliff") = .ok (some 0) ∧
    get_vested_shares ⟨2025, 5, 1⟩ 1000000 (.str "garbage")
      (some "4 year / 1 year cliff") = .error .invalidDate := by
  refine ⟨(date_input_asymmetry ⟨2025, 5, 1⟩).2.1, ?_,
    (date_input_asymmetry ⟨2025, 5, 1⟩).2.2.2 1000000 (.str "garbage")
      (by decide) (by decide) (by decide)⟩
  have h := ((date_input_asymmetry ⟨2025, 5, 1⟩).2.2.1 1000000
    (.str "1/1/2025") ⟨2025, 0, 1⟩ (by decide) (by decide)).1
  rw [h]
  decide
